import Mathlib

/-!
Verification of the disk discovery and classification core of the test
framework (`storage_devices/disk.py`, `test_utils/disk_finder.py`), as a
shallow embedding.  External collaborators (the command executor, `sysfs`
contents, vendor-tool output, helper modules such as `disk_utils` and
`fs_utils` that live outside this repository) are modelled as explicit
environment records; every definition below mirrors one Python function or
method of the source, with mutation turned into explicit state passing and
exceptions into `Except`.
-/

set_option maxRecDepth 8000

deriving instance DecidableEq for Except

namespace TestFramework

/-- `DiskType(IntEnum)` from `storage_devices/disk.py`:
hdd = 0, hdd4k = 1, sata = 2, nand = 3, optane = 4. -/
inductive DiskType where
  | hdd
  | hdd4k
  | sata
  | nand
  | optane
deriving DecidableEq, Repr, Fintype

/-- The numeric value of each `DiskType` member (the `IntEnum` value). -/
def DiskType.val : DiskType → Nat
  | .hdd => 0
  | .hdd4k => 1
  | .sata => 2
  | .nand => 3
  | .optane => 4

/-- The `.name` attribute of each `DiskType` member. -/
def DiskType.name : DiskType → String
  | .hdd => "hdd"
  | .hdd4k => "hdd4k"
  | .sata => "sata"
  | .nand => "nand"
  | .optane => "optane"

/-- `[*DiskType]`: the enum members in declaration order. -/
def diskTypeMembers : List DiskType := [.hdd, .hdd4k, .sata, .nand, .optane]

theorem DiskType.val_injective : Function.Injective DiskType.val := by
  intro a b h
  cases a <;> cases b <;> simp_all [DiskType.val]

/-- `IntEnum` members compare by their numeric value; we lift the linear
order on `ℕ` along `DiskType.val`. -/
instance : LinearOrder DiskType :=
  LinearOrder.lift' DiskType.val DiskType.val_injective

theorem DiskType.lt_iff_val_lt (a b : DiskType) : a < b ↔ a.val < b.val :=
  Iff.rfl

/-- A single-quote character as a string (used inside shell command
strings built by the source). -/
def squote : String := String.singleton (Char.ofNat 39)

/-- Whether the first character list occurs contiguously in the second. -/
def containsSubstrAux (needle : List Char) : List Char → Bool
  | [] => needle.isEmpty
  | c :: rest => needle.isPrefixOf (c :: rest) || containsSubstrAux needle rest

/-- Python's substring containment test `needle in haystack`. -/
def containsSubstr (needle haystack : String) : Bool :=
  containsSubstrAux needle.toList haystack.toList

/-- Split a character list at every separator matched by `p`, keeping
empty tokens (the behaviour of Python's `str.split` with an explicit
separator). -/
def splitWhen (p : Char → Bool) : List Char → List (List Char)
  | [] => [[]]
  | c :: rest =>
      let r := splitWhen p rest
      if p c then [] :: r
      else
        match r with
        | [] => [[c]]
        | h :: t => (c :: h) :: t

/-- Python's `s.split('/')`. -/
def pySplitSlash (s : String) : List String :=
  (splitWhen (fun c => c == Char.ofNat 47) s.toList).map String.mk

/-- Python's `s.startswith(pre)` / Lean's `String.startsWith`, over the
character list. -/
def strStartsWith (pre s : String) : Bool :=
  pre.toList.isPrefixOf s.toList

/-- Replace occurrences of `pat` left to right, non-overlapping, fuelled
by the input length (each step consumes at least one character). -/
def replaceListAux (pat repl : List Char) : Nat → List Char → List Char
  | _, [] => []
  | 0, l => l
  | fuel + 1, c :: rest =>
      if pat.isPrefixOf (c :: rest) && !pat.isEmpty then
        repl ++ replaceListAux pat repl fuel (rest.drop (pat.length - 1))
      else
        c :: replaceListAux pat repl fuel rest

/-- Python's `s.replace(pat, repl)` (all non-overlapping occurrences,
left to right; with an empty pattern nothing is replaced here, a case the
source never exercises). -/
def pyReplace (s pat repl : String) : String :=
  String.mk (replaceListAux pat.toList repl.toList s.toList.length s.toList)

/-! ## Type-constraint expressions (`DiskTypeSetBase` and subclasses) -/

/-- The test run's disk registry `TestRun.disks`, restricted to the data
the expressions read: each registered disk name mapped to its
`disk_type`. -/
def Registry := List (String × DiskType)

/-- Dictionary lookup in the registry (`TestRun.disks[name]`). -/
def Registry.find (reg : Registry) (n : String) : Option DiskType :=
  List.lookup n reg

/-- The two concrete `DiskTypeSetBase` subclasses: `DiskTypeSet` holds a
fixed set of types, `DiskTypeLowerThan` holds a disk name to be resolved
against the registry. -/
inductive DiskTypeExpr where
  | set (types : Finset DiskType)
  | lowerThan (diskName : String)

/-- `resolved()`:  `DiskTypeSet.resolved` returns `True`;
`DiskTypeLowerThan.resolved` returns `self.__disk_name in TestRun.disks`. -/
def DiskTypeExpr.resolved (reg : Registry) : DiskTypeExpr → Bool
  | .set _ => true
  | .lowerThan n => (reg.find n).isSome

/-- `types()`:  `DiskTypeSet.types` returns the stored set;
`DiskTypeLowerThan.types` raises `LookupError("Disk type not resolved!")`
when unresolved, else returns
`set(filter(lambda d: d < disk_type, [*DiskType]))`. -/
def DiskTypeExpr.types (reg : Registry) : DiskTypeExpr → Except String (Finset DiskType)
  | .set s => .ok s
  | .lowerThan n =>
      match reg.find n with
      | none => .error "Disk type not resolved!"
      | some t => .ok (Finset.univ.filter (fun d => d < t))

/-- Python's `min` applied to a set of `DiskType`s: raises
`ValueError("min() arg is an empty sequence")` on the empty set. -/
def minOfSet (s : Finset DiskType) : Except String DiskType :=
  if h : s.Nonempty then .ok (s.min' h)
  else .error "min() arg is an empty sequence"

/-- The shared comparison scheme of `DiskTypeSetBase.__lt__`, `__le__`,
`__eq__`, `__ne__`, `__gt__`, `__ge__`: each operator computes
`min(self.types()) OP min(other.types())`. -/
def cmpWith (f : DiskType → DiskType → Bool) (reg : Registry)
    (a b : DiskTypeExpr) : Except String Bool := do
  let sa ← a.types reg
  let x ← minOfSet sa
  let sb ← b.types reg
  let y ← minOfSet sb
  .ok (f x y)

/-- `DiskTypeSetBase.__lt__`. -/
def exprLt : Registry → DiskTypeExpr → DiskTypeExpr → Except String Bool :=
  cmpWith (fun x y => decide (x < y))

/-- `DiskTypeSetBase.__le__`. -/
def exprLe : Registry → DiskTypeExpr → DiskTypeExpr → Except String Bool :=
  cmpWith (fun x y => decide (x ≤ y))

/-- `DiskTypeSetBase.__eq__`. -/
def exprEq : Registry → DiskTypeExpr → DiskTypeExpr → Except String Bool :=
  cmpWith (fun x y => x == y)

/-- `DiskTypeSetBase.__ne__`. -/
def exprNe : Registry → DiskTypeExpr → DiskTypeExpr → Except String Bool :=
  cmpWith (fun x y => x != y)

/-- `DiskTypeSetBase.__gt__`. -/
def exprGt : Registry → DiskTypeExpr → DiskTypeExpr → Except String Bool :=
  cmpWith (fun x y => decide (y < x))

/-- `DiskTypeSetBase.__ge__`. -/
def exprGe : Registry → DiskTypeExpr → DiskTypeExpr → Except String Bool :=
  cmpWith (fun x y => decide (y ≤ x))

/-- A decoded JSON value, the image of `json.dumps` on the small tagged
structures the expressions serialize to. -/
inductive Json where
  | str : String → Json
  | arr : List Json → Json
  | obj : List (String × Json) → Json

/-- `DiskTypeSetBase.json` for a `DiskTypeSet`:
`json.dumps({"type": "set", "values": [t.name for t in self.types()]})`,
viewed as its decoded value.  Python iterates the set in an unspecified
order; we fix the iteration order as enum declaration order (the claim
about the values is order-independent). -/
def DiskTypeSet.json (s : Finset DiskType) : Json :=
  .obj [("type", .str "set"),
        ("values", .arr ((diskTypeMembers.filter (fun t => decide (t ∈ s))).map
          (fun t => .str t.name)))]

/-! ## Disk discovery (`test_utils/disk_finder.py`) -/

/-- One entry of the vendor SSD tool's inventory (`isdct show -intelssd i`),
holding the parsed `DevicePath` token, the parsed `SerialNumber` token, and
whether the `grep Optane` probe for the entry exits 0. -/
structure SsdEntry where
  devicePath : String
  serial : String
  isOptane : Bool

/-- The environment `disk_finder.py` queries through the command executor
and through helper modules that live outside this repository
(`fs_utils.readlink`, `disk_utils.get_block_size`, `disk_utils.get_size`,
`sg_inq` serial parsing): every field is the parsed result of the
corresponding query. -/
structure FinderEnv where
  /-- whether the bare `isdct` probe command exits 0 -/
  isdctOk : Bool
  /-- `ls /sys/block -1`, split into lines -/
  sysBlockList : List String
  /-- the result of `get_system_disks()` (OS-backing device names) -/
  systemDisks : List String
  /-- `resolve_to_by_id_link`: the by-id link whose target matches the
  device, `none` when no by-id link matches (`ValueError`) -/
  byIdLink : String → Option String
  /-- `fs_utils.readlink` -/
  readlink : String → String
  /-- `disk_utils.get_block_size` on a kernel device name -/
  getBlockSize : String → Nat
  /-- `disk_utils.get_size` on a kernel device name -/
  getSize : String → Nat
  /-- the serial number parsed from `sg_inq <dev>` output -/
  sgSerial : String → String
  /-- the vendor tool's inventory in index order `0..ssd_count-1` -/
  ssdEntries : List SsdEntry

/-- `resolve_to_by_id_link(path)`: returns the matching by-id link or
raises `ValueError(f"By-id device link not found for device {path}")`. -/
def resolveToByIdLink (env : FinderEnv) (path : String) : Except String String :=
  match env.byIdLink path with
  | none => .error ("By-id device link not found for device " ++ path)
  | some link => .ok link

/-- `get_block_devices_list()`: filter `ls /sys/block` entries whose name
contains `sd` or `nvme` and which do not back the OS, and resolve each to
its by-id link. -/
def getBlockDevicesList (env : FinderEnv) : Except String (List String) :=
  (env.sysBlockList.filter
      (fun dev => (containsSubstr "sd" dev || containsSubstr "nvme" dev)
        && !(env.systemDisks.contains dev))).mapM
    (fun dev => resolveToByIdLink env dev)

/-- `disk_utils.get_block_size(readlink(dev).replace('/dev/', ''))`. -/
def devBlockSize (env : FinderEnv) (dev : String) : Nat :=
  env.getBlockSize (pyReplace (env.readlink dev) "/dev/" "")

/-- `disk_utils.get_size(readlink(dev).replace('/dev/', ''))`. -/
def devSize (env : FinderEnv) (dev : String) : Nat :=
  env.getSize (pyReplace (env.readlink dev) "/dev/" "")

/-- `find_sata_ssd_device_path(serial_number, block_devices)`: the first
candidate whose `sg_inq` serial equals the given serial, else `None`. -/
def findSataSsdDevicePath (env : FinderEnv) (serialNumber : String) :
    List String → Option String
  | [] => none
  | dev :: rest =>
      if env.sgSerial dev == serialNumber then some dev
      else findSataSsdDevicePath env serialNumber rest

/-- A normalized device record, the dictionary appended to `devices_res`
by `discover_ssd_devices` / `discover_hdd_devices`. -/
structure DiskRecord where
  type : String
  path : String
  serial : String
  blocksize : Nat
  size : Nat
deriving DecidableEq, Repr

/-- `discover_ssd_devices(block_devices, devices_res)`, with the two
mutated lists made explicit: returns the appended records (in vendor-tool
index order) and the candidate pool left after the matched devices were
removed (`block_devices.remove(dev)` removes the first occurrence).
Entries whose resolved device is not in the pool are skipped, as are SATA
entries whose serial matches no pooled candidate. -/
def discoverSsdDevices (env : FinderEnv) :
    List SsdEntry → List String → Except String (List DiskRecord × List String)
  | [], bd => .ok ([], bd)
  | e :: rest, bd => do
      let dev ← resolveToByIdLink env e.devicePath
      if !(bd.contains dev) then
        discoverSsdDevices env rest bd
      else if !(containsSubstr "nvme" e.devicePath) then
        match findSataSsdDevicePath env e.serial bd with
        | none => discoverSsdDevices env rest bd
        | some dev2 => do
            let devicePath := if containsSubstr "sg" e.devicePath then dev2 else e.devicePath
            let path ← resolveToByIdLink env devicePath
            let record : DiskRecord :=
              { type := "sata", path := path, serial := e.serial,
                blocksize := devBlockSize env dev2, size := devSize env dev2 }
            let (recs, bdFinal) ← discoverSsdDevices env rest (bd.erase dev2)
            .ok (record :: recs, bdFinal)
      else do
        let diskType := if e.isOptane then "optane" else "nand"
        let path ← resolveToByIdLink env e.devicePath
        let record : DiskRecord :=
          { type := diskType, path := path, serial := e.serial,
            blocksize := devBlockSize env dev, size := devSize env dev }
        let (recs, bdFinal) ← discoverSsdDevices env rest (bd.erase dev)
        .ok (record :: recs, bdFinal)

/-- The devices consumed (removed from the candidate pool) by
`discover_ssd_devices`, read off the same recursion. -/
def ssdConsumed (env : FinderEnv) : List SsdEntry → List String → List String
  | [], _ => []
  | e :: rest, bd =>
      match env.byIdLink e.devicePath with
      | none => []
      | some dev =>
        if !(bd.contains dev) then ssdConsumed env rest bd
        else if !(containsSubstr "nvme" e.devicePath) then
          match findSataSsdDevicePath env e.serial bd with
          | none => ssdConsumed env rest bd
          | some dev2 => dev2 :: ssdConsumed env rest (bd.erase dev2)
        else dev :: ssdConsumed env rest (bd.erase dev)

/-- The record built for one candidate by the loop body of
`discover_hdd_devices`: block size measured, `hdd4k` when it equals 4096,
else `hdd`. -/
def hddRecordFor (env : FinderEnv) (dev : String) : DiskRecord :=
  let blockSize := devBlockSize env dev
  { type := if blockSize == 4096 then "hdd4k" else "hdd",
    path := dev,
    serial := env.sgSerial dev,
    blocksize := blockSize,
    size := devSize env dev }

/-- `discover_hdd_devices(block_devices, devices_res)`: every candidate
left in the pool becomes an HDD record, in pool (filesystem listing)
order; the pool is cleared afterwards. -/
def discoverHddDevices (env : FinderEnv) (bd : List String) : List DiskRecord :=
  bd.map (hddRecordFor env)

/-- `find_disks()`: probe `isdct` (fatal when it fails), list candidate
block devices, classify SSDs then HDDs, and return the combined record
sequence; errors inside the two discovery passes are re-raised with a
fixed prefix. -/
def findDisks (env : FinderEnv) : Except String (List DiskRecord) :=
  if !env.isdctOk then
    .error ("Error while executing command: " ++ squote ++ "isdct" ++ squote ++ ".")
  else
    match getBlockDevicesList env with
    | .error e => .error e
    | .ok bd =>
        match (do
            let (ssdRecs, bdLeft) ← discoverSsdDevices env env.ssdEntries bd
            pure (ssdRecs ++ discoverHddDevices env bdLeft) :
            Except String (List DiskRecord)) with
        | .error e => .error ("Exception occurred while looking for disks: " ++ e)
        | .ok r => .ok r

/-! ## Disk model (`storage_devices/disk.py`) -/

/-- A shell interaction issued by the disk model through the command
executor: the two read-only detection probes, and the plug / unplug
commands proper. -/
inductive Cmd where
  | queryAllSerialNumbers
  | lsItem (path : String)
  | plugCmd (cmd : String)
  | unplugCmd (cmd : String)
deriving DecidableEq, Repr

/-- `Cmd.plugCmd` / `Cmd.unplugCmd` are the plug/unplug commands; the
detection probes are not. -/
def Cmd.isPlugOrUnplug : Cmd → Bool
  | .plugCmd _ => true
  | .unplugCmd _ => true
  | _ => false

/-- A partition child of a `Disk`: its path and number. -/
structure Partition where
  path : String
  number : Nat
deriving DecidableEq, Repr

/-- The mutable fields of a `Disk` / `SataDisk` object that the
plug/unplug operations read or write.  `plugCommand` is the
`SataDisk.plug_command` cache, initialized to `SataDisk.plug_all_command`
by the constructor. -/
structure DiskState where
  path : Option String
  serialNumber : Option String
  diskType : DiskType
  partitions : List Partition
  plugCommand : String
deriving DecidableEq, Repr

/-- One snapshot of the target machine as seen through the executor and
the helper modules outside this repository (`disk_finder.
get_all_serial_numbers`, `fs_utils.ls_item`/`parse_ls_output`,
`disk_utils.get_partition_path`, `Device.get_device_id`, and the
`find -H /sys/devices -name <id> -type d` sysfs search). -/
structure DetectEnv where
  /-- the serial-to-path dictionary built by `get_all_serial_numbers()` -/
  serialNumbers : List (String × String)
  /-- whether `ls_item` finds the given path (`parse_ls_output(...)[0]`
  is not `None`) -/
  pathExists : String → Bool
  /-- `disk_utils.get_partition_path(parent_path, number)` -/
  getPartitionPath : String → Nat → String
  /-- `Device.get_device_id()` as a function of the device path -/
  getDeviceId : String → String
  /-- the sysfs directory found for a device id, `none` when the search
  comes back empty -/
  sysfsAddr : String → Option String

/-- Python truthiness of an optional string attribute (`None` and the
empty string are falsy). -/
def truthy : Option String → Bool
  | none => false
  | some s => !(s == "")

/-- `Disk.is_detected()`: with a truthy serial number, rebuild the
serial-to-path map and test membership, updating `self.path` and every
partition's path on success; else with a truthy path, probe the path
directly; else raise.  Returns the answer, the updated state and the
probes issued. -/
def isDetected (env : DetectEnv) (s : DiskState) :
    Except String (Bool × DiskState × List Cmd) :=
  if truthy s.serialNumber then
    match List.lookup (s.serialNumber.getD "") env.serialNumbers with
    | none => .ok (false, s, [Cmd.queryAllSerialNumbers])
    | some p =>
        .ok (true,
          { s with
            path := some p,
            partitions := s.partitions.map
              (fun pt => { pt with path := env.getPartitionPath p pt.number }) },
          [Cmd.queryAllSerialNumbers])
  else if truthy s.path then
    .ok (env.pathExists (s.path.getD ""), s, [Cmd.lsItem (s.path.getD "")])
  else
    .error ("Couldn" ++ squote ++ "t check if device is detected by the system")

/-- The message of the exception raised by `Disk.wait_for_plug_status` on
timeout. -/
def timeoutMessage (shouldBeVisible : Bool) : String :=
  "Timeout occurred while trying to " ++
    (if shouldBeVisible then "plug" else "unplug") ++ " disk."

/-- `wait_for_plug_status` passes `timedelta(minutes=1)` as the timeout. -/
def waitTimeoutSeconds : Nat := 60

/-- `wait_for_plug_status` passes `timedelta(seconds=1)` as the interval. -/
def waitIntervalSeconds : Nat := 1

/-- Modelled from the spec: `test_utils.os_utils.wait` is not part of this
repository; per the spec it retries the predicate at a fixed interval up
to the timeout ("fixed-interval retry (1-second interval, 60-second cap)")
and reports whether the predicate ever held.  The predicate
`should_be_visible == self.is_detected()` mutates the disk, so the state
is threaded through the polls; `envs i` is the machine snapshot seen by
poll number `i`, and the fuel is the number of polls still allowed. -/
def pollWait (want : Bool) (envs : Nat → DetectEnv) :
    DiskState → Nat → Nat → Except String (Bool × DiskState × List Cmd)
  | s, _, 0 => .ok (false, s, [])
  | s, i, fuel + 1 => do
      let (det, s1, t1) ← isDetected (envs i) s
      if det == want then .ok (true, s1, t1)
      else do
        let (found, s2, t2) ← pollWait want envs s1 (i + 1) fuel
        .ok (found, s2, t1 ++ t2)

/-- `Disk.wait_for_plug_status(should_be_visible)`: poll for the wanted
visibility once per second for up to a minute, raising the timeout
exception when the wait fails. -/
def waitForPlugStatus (shouldBeVisible : Bool) (envs : Nat → DetectEnv)
    (s : DiskState) : Except String (DiskState × List Cmd) := do
  let (found, s1, t1) ←
    pollWait shouldBeVisible envs s 1 (waitTimeoutSeconds / waitIntervalSeconds)
  if found then .ok (s1, t1) else .error (timeoutMessage shouldBeVisible)

/-- The type-specific `execute_plug_command` / `execute_unplug_command`
methods, dispatched dynamically on the concrete subclass: a state
transformer that returns the commands it runs. -/
def ExecCmd := DetectEnv → DiskState → Except String (DiskState × List Cmd)

/-- `Disk.plug()`: return immediately when already detected, else run the
subclass plug command and wait for the disk to appear.  `envs 0` is the
snapshot for the initial detection check and the command; polls start at
`envs 1`. -/
def Disk.plug (execPlug : ExecCmd) (envs : Nat → DetectEnv) (s : DiskState) :
    Except String (DiskState × List Cmd) := do
  let (det, s1, t1) ← isDetected (envs 0) s
  if det then .ok (s1, t1)
  else do
    let (s2, t2) ← execPlug (envs 0) s1
    let (s3, t3) ← waitForPlugStatus true envs s2
    .ok (s3, t1 ++ t2 ++ t3)

/-- `Disk.unplug()`: return immediately when already gone, else run the
subclass unplug command and wait for the disk to disappear. -/
def Disk.unplug (execUnplug : ExecCmd) (envs : Nat → DetectEnv) (s : DiskState) :
    Except String (DiskState × List Cmd) := do
  let (det, s1, t1) ← isDetected (envs 0) s
  if !det then .ok (s1, t1)
  else do
    let (s2, t2) ← execUnplug (envs 0) s1
    let (s3, t3) ← waitForPlugStatus false envs s2
    .ok (s3, t1 ++ t2 ++ t3)

/-- `SataDisk.plug_all_command`. -/
def SataDisk.plugAllCommand : String :=
  "for i in $(find -H /sys/devices/ -path " ++ squote ++ "*/scsi_host/*/scan"
    ++ squote ++ " -type f); do echo " ++ squote ++ "- - -" ++ squote
    ++ " > $i; done;"

/-- `NvmeDisk.plug_all_command`. -/
def NvmeDisk.plugAllCommand : String := "echo 1 > /sys/bus/pci/rescan"

/-- Split a character list at every `-` or `:` separator, keeping empty
tokens. -/
def splitOnSeps (l : List Char) : List (List Char) :=
  splitWhen (fun c => c == Char.ofNat 45 || c == Char.ofNat 58) l

/-- The regular expression
`^(?P<controller>\d+)[-:](?P<port>\d+)[-:](?P<target>\d+)[-:](?P<lun>\d+)$`
applied to the SCSI address component: four non-empty digit groups
separated by `-` or `:`, or no match. -/
def parseScsiAddr (s : String) : Option (String × String × String × String) :=
  match splitOnSeps s.toList with
  | [c, p, t, l] =>
      if c.isEmpty || p.isEmpty || t.isEmpty || l.isEmpty
          || !((c ++ p ++ t ++ l).all Char.isDigit) then
        none
      else
        some (String.mk c, String.mk p, String.mk t, String.mk l)
  | _ => none

/-- `"/".join(itertools.takewhile(lambda x: not x.startswith("host"), dirs))`:
the path components of the sysfs address up to the first `host*` one. -/
def sysfsHostPath (fullPath : String) : String :=
  String.intercalate "/"
    ((pySplitSlash fullPath).takeWhile (fun x => !(strStartsWith "host" x)))

/-- The reconstructed targeted scan command
`echo '{port} {target} {lun}' > {host_path}/host{controller}/scsi_host/host{controller}/scan`. -/
def scsiScanCommand (hostPath controllerId portId targetId lun : String) : String :=
  "echo " ++ squote ++ portId ++ " " ++ targetId ++ " " ++ lun ++ squote
    ++ " > " ++ hostPath ++ "/host" ++ controllerId
    ++ "/scsi_host/host" ++ controllerId ++ "/scan"

/-- `SataDisk.get_sysfs_properties(device_id)`: locate the device's sysfs
directory, read the SCSI address tuple from the third-from-last path
component, rebuild and cache the targeted scan command in
`self.plug_command`, and return the sysfs address. -/
def SataDisk.getSysfsProperties (env : DetectEnv) (s : DiskState)
    (deviceId : String) : Except String (String × DiskState) :=
  match env.sysfsAddr deviceId with
  | none =>
      .error ("Failed to find sysfs address: ls -l $(find -H /sys/devices/ -name "
        ++ deviceId ++ " -type d)")
  | some fullPath =>
      let dirs := pySplitSlash fullPath
      if dirs.length < 3 then
        .error "list index out of range"
      else
        match parseScsiAddr (dirs.getD (dirs.length - 3) "") with
        | none => .error "TypeError: NoneType object is not subscriptable"
        | some (controllerId, portId, targetId, lun) =>
            .ok (fullPath,
              { s with
                plugCommand := scsiScanCommand (sysfsHostPath fullPath)
                  controllerId portId targetId lun })

/-- `SataDisk.execute_plug_command()`: run the cached `plug_command`. -/
def SataDisk.executePlugCommand : ExecCmd :=
  fun _ s => .ok (s, [Cmd.plugCmd s.plugCommand])

/-- `SataDisk.execute_unplug_command()`: resolve the sysfs properties
(which as a side effect caches the targeted scan command) and write to
the address's deletion control file. -/
def SataDisk.executeUnplugCommand : ExecCmd :=
  fun env s => do
    let (fullPath, s1) ←
      SataDisk.getSysfsProperties env s (env.getDeviceId (s.path.getD ""))
    .ok (s1, [Cmd.unplugCmd ("echo 1 > " ++ fullPath ++ "/device/delete")])

/-- A concrete machine snapshot for exercising the plug/unplug timeout:
only the disk at by-id path `ata-1` is present, and the sysfs search
finds a well-formed SCSI address directory. -/
def c5Env : DetectEnv :=
  ⟨[], fun p => p == "/dev/disk/by-id/ata-1", fun _ _ => "", fun _ => "sda",
    fun _ => some "/sys/devices/platform/host0/target0:0:0/0:0:0:0/block/sda"⟩

/-- A SATA disk identified by path `ata-1` (present in `c5Env` forever). -/
def c5DiskA : DiskState :=
  ⟨some "/dev/disk/by-id/ata-1", none, DiskType.sata, [], SataDisk.plugAllCommand⟩

/-- `c5DiskA` after its unplug command ran: the cached plug command now
targets the parsed SCSI address. -/
def c5DiskA2 : DiskState :=
  ⟨some "/dev/disk/by-id/ata-1", none, DiskType.sata, [],
    "echo " ++ squote ++ "0 0 0" ++ squote
      ++ " > /sys/devices/platform/host0/scsi_host/host0/scan"⟩

/-- A SATA disk identified by path `ata-2` (never present in `c5Env`). -/
def c5DiskB : DiskState :=
  ⟨some "/dev/disk/by-id/ata-2", none, DiskType.sata, [], SataDisk.plugAllCommand⟩

/-- A concrete discovery environment: one OS disk (`sda`, excluded), one
plain HDD (`sdb`), and one NVMe device that the vendor tool reports as a
non-Optane SSD. -/
def c6Env : FinderEnv where
  isdctOk := true
  sysBlockList := ["sda", "sdb", "nvme0n1"]
  systemDisks := ["sda"]
  byIdLink := fun p =>
    if p == "sdb" then some "/dev/disk/by-id/wwn-sdb"
    else if p == "nvme0n1" then some "/dev/disk/by-id/nvme-1"
    else if p == "/dev/nvme0n1" then some "/dev/disk/by-id/nvme-1"
    else none
  readlink := fun p => p
  getBlockSize := fun _ => 512
  getSize := fun _ => 1000000
  sgSerial := fun _ => "HDDSER"
  ssdEntries := [⟨"/dev/nvme0n1", "SSDSER", false⟩]

/-- A machine snapshot with no device present at all (used for the
post-unplug polls of a successful unplug). -/
def c9EnvGone : DetectEnv :=
  ⟨[], fun _ => false, fun _ _ => "", fun _ => "sda",
    fun _ => some "/sys/devices/platform/host0/target0:0:0/0:0:0:0/block/sda"⟩

/-- A time-indexed environment: the device is present before the unplug
command (time 0) and gone from the first poll on. -/
def c9Envs : Nat → DetectEnv := fun i => if i == 0 then c5Env else c9EnvGone

/-! ## Supporting lemmas -/

theorem mem_diskTypeMembers (d : DiskType) : d ∈ diskTypeMembers := by
  cases d <;> simp [diskTypeMembers]

theorem minOfSet_ok (s : Finset DiskType) (h : s.Nonempty) :
    minOfSet s = .ok (s.min' h) := by
  simp [minOfSet, h]

theorem minOfSet_empty : minOfSet ∅ = .error "min() arg is an empty sequence" := by
  simp [minOfSet]

theorem partitionRefresh_idem (g : String → Nat → String) (p : String)
    (l : List Partition) :
    (l.map (fun pt => { pt with path := g p pt.number })).map
        (fun pt => { pt with path := g p pt.number })
      = l.map (fun pt => { pt with path := g p pt.number }) := by
  induction l with
  | nil => rfl
  | cons q qs ih => simp [ih]

theorem isDetected_noPlugCmds (env : DetectEnv) (s : DiskState) (b : Bool)
    (s1 : DiskState) (tr : List Cmd)
    (h : isDetected env s = .ok (b, s1, tr)) :
    tr.any Cmd.isPlugOrUnplug = false := by
  unfold isDetected at h
  split at h
  · split at h <;>
      · simp only [Except.ok.injEq, Prod.mk.injEq] at h
        obtain ⟨-, -, ht⟩ := h
        subst ht
        rfl
  · split at h
    · simp only [Except.ok.injEq, Prod.mk.injEq] at h
      obtain ⟨-, -, ht⟩ := h
      subst ht
      rfl
    · simp at h

theorem isDetected_idem (env : DetectEnv) (s : DiskState) (b : Bool)
    (s1 : DiskState) (tr : List Cmd)
    (h : isDetected env s = .ok (b, s1, tr)) :
    isDetected env s1 = .ok (b, s1, tr) := by
  have hcopy := h
  unfold isDetected at h
  split at h
  case isTrue h1 =>
    split at h
    case _ heq =>
      simp only [Except.ok.injEq, Prod.mk.injEq] at h
      obtain ⟨-, hs, -⟩ := h
      subst hs
      exact hcopy
    case _ p heq =>
      simp only [Except.ok.injEq, Prod.mk.injEq] at h
      obtain ⟨hb, hs, ht⟩ := h
      subst hb hs ht
      unfold isDetected
      have h1' : truthy ({ s with
          path := some p,
          partitions := s.partitions.map
            (fun pt => { pt with path := env.getPartitionPath p pt.number }) } :
          DiskState).serialNumber = true := h1
      rw [if_pos h1']
      have heq' : List.lookup (({ s with
          path := some p,
          partitions := s.partitions.map
            (fun pt => { pt with path := env.getPartitionPath p pt.number }) } :
          DiskState).serialNumber.getD "") env.serialNumbers = some p := heq
      rw [heq']
      simp [partitionRefresh_idem]
  case isFalse h1 =>
    split at h
    · simp only [Except.ok.injEq, Prod.mk.injEq] at h
      obtain ⟨-, hs, -⟩ := h
      subst hs
      exact hcopy
    · simp at h

theorem stringDataAppend (a b : String) : (a ++ b).data = a.data ++ b.data := by
  obtain ⟨la⟩ := a
  obtain ⟨lb⟩ := b
  rfl

theorem isDetected_plugCommand (env : DetectEnv) (s : DiskState) (b : Bool)
    (s1 : DiskState) (tr : List Cmd)
    (h : isDetected env s = .ok (b, s1, tr)) :
    s1.plugCommand = s.plugCommand := by
  unfold isDetected at h
  split at h
  · split at h <;>
      · simp only [Except.ok.injEq, Prod.mk.injEq] at h
        obtain ⟨-, hs, -⟩ := h
        subst hs
        rfl
  · split at h
    · simp only [Except.ok.injEq, Prod.mk.injEq] at h
      obtain ⟨-, hs, -⟩ := h
      subst hs
      rfl
    · simp at h

theorem scanCommand_ne_plugAll (hostPath cId pId tId lun : String) :
    scsiScanCommand hostPath cId pId tId lun ≠ SataDisk.plugAllCommand := by
  intro h
  have h2 : (scsiScanCommand hostPath cId pId tId lun).data.head?
      = SataDisk.plugAllCommand.data.head? := by rw [h]
  have h3 : (scsiScanCommand hostPath cId pId tId lun).data.head?
      = some (Char.ofNat 101) := by
    simp only [scsiScanCommand, stringDataAppend, List.append_assoc]
    rfl
  rw [h3, show SataDisk.plugAllCommand.data.head? = some (Char.ofNat 102) from rfl] at h2
  exact absurd h2 (by decide)

theorem pollWait_succ (want : Bool) (envs : Nat → DetectEnv) (s : DiskState)
    (i fuel : Nat) :
    pollWait want envs s i (fuel + 1)
      = (match isDetected (envs i) s with
        | .error e => .error e
        | .ok (det, s1, t1) =>
            if det == want then .ok (true, s1, t1)
            else
              match pollWait want envs s1 (i + 1) fuel with
              | .error e => .error e
              | .ok (found, s2, t2) => .ok (found, s2, t1 ++ t2)) := by
  cases h : isDetected (envs i) s with
  | error e => simp [pollWait, h, Bind.bind, Except.bind]
  | ok v =>
      obtain ⟨det, s1, t1⟩ := v
      by_cases hd : (det == want) = true
      · simp [pollWait, h, hd, Bind.bind, Except.bind]
      · rw [Bool.not_eq_true] at hd
        cases h2 : pollWait want envs s1 (i + 1) fuel with
        | error e => simp [pollWait, h, hd, h2, Bind.bind, Except.bind]
        | ok w =>
            obtain ⟨found, s2, t2⟩ := w
            simp [pollWait, h, hd, h2, Bind.bind, Except.bind]

theorem pollWait_stuck (env : DetectEnv) (want b : Bool) (s : DiskState)
    (tr : List Cmd) (h : isDetected env s = .ok (b, s, tr))
    (hb : (b == want) = false) :
    ∀ fuel i, pollWait want (fun _ => env) s i fuel
      = .ok (false, s, (List.replicate fuel tr).flatten) := by
  intro fuel
  induction fuel with
  | zero => intro i; rfl
  | succ n ih =>
      intro i
      simp [pollWait, h, hb, Bind.bind, Except.bind, ih (i + 1),
        List.replicate_succ]

theorem discoverSsd_skip (env : FinderEnv) (e : SsdEntry) (rest : List SsdEntry)
    (bd : List String) (dv : String)
    (hdv : env.byIdLink e.devicePath = some dv)
    (hnotin : bd.contains dv = false) :
    discoverSsdDevices env (e :: rest) bd = discoverSsdDevices env rest bd := by
  conv_lhs => rw [discoverSsdDevices]
  simp only [resolveToByIdLink, hdv, Bind.bind, Except.bind]
  rw [if_pos (by rw [hnotin]; rfl)]

theorem discoverSsd_props (env : FinderEnv) :
    ∀ (es : List SsdEntry) (bd : List String) (recs : List DiskRecord)
      (bdLeft : List String),
    discoverSsdDevices env es bd = .ok (recs, bdLeft) →
    bdLeft.Sublist bd ∧
    (bd.Nodup → ∀ d ∈ ssdConsumed env es bd, d ∉ bdLeft) := by
  intro es
  induction es with
  | nil =>
      intro bd recs bdLeft h
      simp only [discoverSsdDevices, Except.ok.injEq, Prod.mk.injEq] at h
      obtain ⟨-, h2⟩ := h
      subst h2
      exact ⟨List.Sublist.refl _, fun _ d hd => by simp [ssdConsumed] at hd⟩
  | cons e rest ih =>
      intro bd recs bdLeft h
      unfold discoverSsdDevices at h
      cases hr : env.byIdLink e.devicePath with
      | none => simp [resolveToByIdLink, hr, Bind.bind, Except.bind] at h
      | some dev =>
        simp only [resolveToByIdLink, hr, Bind.bind, Except.bind] at h
        by_cases hc : (!(bd.contains dev)) = true
        · -- entry skipped: its resolved device is not in the pool
          rw [if_pos hc] at h
          obtain ⟨hsub, hcons⟩ := ih _ _ _ h
          refine ⟨hsub, fun hnd d hd => ?_⟩
          rw [show ssdConsumed env (e :: rest) bd = ssdConsumed env rest bd from by
            simp only [ssdConsumed, hr]
            rw [if_pos hc]] at hd
          exact hcons hnd d hd
        · rw [if_neg hc] at h
          by_cases hn : (!(containsSubstr "nvme" e.devicePath)) = true
          · -- SATA branch
            rw [if_pos hn] at h
            cases hf : findSataSsdDevicePath env e.serial bd with
            | none =>
                simp only [hf] at h
                obtain ⟨hsub, hcons⟩ := ih _ _ _ h
                refine ⟨hsub, fun hnd d hd => ?_⟩
                rw [show ssdConsumed env (e :: rest) bd = ssdConsumed env rest bd from by
                  simp only [ssdConsumed, hr, hf]
                  rw [if_neg hc, if_pos hn]] at hd
                exact hcons hnd d hd
            | some dev2 =>
                simp only [hf] at h
                cases hp : env.byIdLink
                    (if containsSubstr "sg" e.devicePath = true then dev2
                     else e.devicePath) with
                | none =>
                    simp only [resolveToByIdLink, hp, Bind.bind, Except.bind] at h
                    exact absurd h (by simp)
                | some pth =>
                    simp only [resolveToByIdLink, hp, Bind.bind, Except.bind] at h
                    cases hd : discoverSsdDevices env rest (bd.erase dev2) with
                    | error e2 =>
                        simp only [hd] at h
                        exact absurd h (by simp)
                    | ok w =>
                        obtain ⟨recs2, bdF⟩ := w
                        simp only [hd, Except.ok.injEq, Prod.mk.injEq] at h
                        obtain ⟨-, h2⟩ := h
                        subst h2
                        obtain ⟨hsub, hcons⟩ := ih _ _ _ hd
                        refine ⟨hsub.trans (List.erase_sublist _ _), fun hnd d hd2 => ?_⟩
                        rw [show ssdConsumed env (e :: rest) bd
                            = dev2 :: ssdConsumed env rest (bd.erase dev2) from by
                          simp only [ssdConsumed, hr, hf]
                          rw [if_neg hc, if_pos hn]] at hd2
                        rcases List.mem_cons.mp hd2 with rfl | hd3
                        · intro hmem
                          have hmem2 := hsub.subset hmem
                          rw [List.Nodup.mem_erase_iff hnd] at hmem2
                          exact hmem2.1 rfl
                        · exact hcons (hnd.erase _) d hd3
          · -- NVMe branch (nand / optane)
            rw [if_neg hn] at h
            cases hd : discoverSsdDevices env rest (bd.erase dev) with
            | error e2 =>
                simp only [hd] at h
                exact absurd h (by simp)
            | ok w =>
                obtain ⟨recs2, bdF⟩ := w
                simp only [hd, Except.ok.injEq, Prod.mk.injEq] at h
                obtain ⟨-, h2⟩ := h
                subst h2
                obtain ⟨hsub, hcons⟩ := ih _ _ _ hd
                refine ⟨hsub.trans (List.erase_sublist _ _), fun hnd d hd2 => ?_⟩
                rw [show ssdConsumed env (e :: rest) bd
                    = dev :: ssdConsumed env rest (bd.erase dev) from by
                  simp only [ssdConsumed, hr]
                  rw [if_neg hc, if_neg hn]] at hd2
                rcases List.mem_cons.mp hd2 with rfl | hd3
                · intro hmem
                  have hmem2 := hsub.subset hmem
                  rw [List.Nodup.mem_erase_iff hnd] at hmem2
                  exact hmem2.1 rfl
                · exact hcons (hnd.erase _) d hd3

/-! ## Claims -/

/-- C1: for every raw block-size value measured for a candidate HDD
device, discovery classifies the device as `hdd4k` iff the value equals
exactly 4096 and as `hdd` otherwise, and the record's block size field
carries the measured value. -/
theorem c1_hdd_classification (env : FinderEnv) (dev : String) :
    ((hddRecordFor env dev).type = "hdd4k" ↔ devBlockSize env dev = 4096) ∧
    ((hddRecordFor env dev).type = "hdd" ↔ devBlockSize env dev ≠ 4096) ∧
    (hddRecordFor env dev).blocksize = devBlockSize env dev := by
  unfold hddRecordFor
  by_cases h : devBlockSize env dev = 4096 <;> simp [h]

/-- C2: `DiskTypeLowerThan(X).types()` raises a lookup error while X is
not registered, and once X is registered with disk type `t` it returns
exactly the `DiskType` values whose ordinal value is strictly less than
`t`'s (ordinal order hdd = 0 < hdd4k = 1 < sata = 2 < nand = 3 <
optane = 4). -/
theorem c2_lowerThan_resolution (regA regB : Registry) (n : String) (t : DiskType)
    (hA : regA.find n = none) (hB : regB.find n = some t) :
    (DiskTypeExpr.lowerThan n).resolved regA = false ∧
    (DiskTypeExpr.lowerThan n).types regA = .error "Disk type not resolved!" ∧
    (DiskTypeExpr.lowerThan n).resolved regB = true ∧
    (DiskTypeExpr.lowerThan n).types regB
      = .ok (Finset.univ.filter (fun d => d.val < t.val)) := by
  refine ⟨?_, ?_, ?_, ?_⟩
  · simp [DiskTypeExpr.resolved, hA]
  · simp [DiskTypeExpr.types, hA]
  · simp [DiskTypeExpr.resolved, hB]
  · have hset : (Finset.univ.filter (fun d : DiskType => d < t))
        = Finset.univ.filter (fun d => d.val < t.val) := by
      ext d
      simp [DiskType.lt_iff_val_lt]
    simp only [DiskTypeExpr.types, hB, hset]

/-- Witness for C2 at a concrete registry and disk type. -/
theorem c2_lowerThan_resolution_witness :
    (DiskTypeExpr.lowerThan "disk1").resolved [] = false ∧
    (DiskTypeExpr.lowerThan "disk1").types [] = .error "Disk type not resolved!" ∧
    (DiskTypeExpr.lowerThan "disk1").resolved [("disk1", DiskType.sata)] = true ∧
    (DiskTypeExpr.lowerThan "disk1").types [("disk1", DiskType.sata)]
      = .ok (Finset.univ.filter (fun d => d.val < DiskType.sata.val)) :=
  c2_lowerThan_resolution [] [("disk1", DiskType.sata)] "disk1" DiskType.sata
    (by decide) (by decide)

/-- C3: when both expressions resolve to non-empty sets with minima `ma`
and `mb`, every comparison operator returns the comparison of `ma` with
`mb` alone, independent of the other elements. -/
theorem c3_cmp_min_only (reg : Registry) (a b : DiskTypeExpr)
    (sa sb : Finset DiskType)
    (ha : a.types reg = .ok sa) (hb : b.types reg = .ok sb)
    (hna : sa.Nonempty) (hnb : sb.Nonempty) :
    exprLt reg a b = .ok (decide (sa.min' hna < sb.min' hnb)) ∧
    exprLe reg a b = .ok (decide (sa.min' hna ≤ sb.min' hnb)) ∧
    exprEq reg a b = .ok (sa.min' hna == sb.min' hnb) ∧
    exprNe reg a b = .ok (sa.min' hna != sb.min' hnb) ∧
    exprGt reg a b = .ok (decide (sb.min' hnb < sa.min' hna)) ∧
    exprGe reg a b = .ok (decide (sb.min' hnb ≤ sa.min' hna)) := by
  have hA := minOfSet_ok sa hna
  have hB := minOfSet_ok sb hnb
  refine ⟨?_, ?_, ?_, ?_, ?_, ?_⟩ <;>
    simp [exprLt, exprLe, exprEq, exprNe, exprGt, exprGe, cmpWith,
      ha, hb, hA, hB, Bind.bind, Except.bind]

/-- Witness for C3 at concrete sets `{sata, nand}` and `{hdd4k, optane}`. -/
theorem c3_cmp_min_only_witness :
    exprLt [] (.set {DiskType.sata, DiskType.nand}) (.set {DiskType.hdd4k, DiskType.optane})
      = .ok (decide (Finset.min' {DiskType.sata, DiskType.nand} (by decide)
          < Finset.min' {DiskType.hdd4k, DiskType.optane} (by decide))) ∧
    exprLe [] (.set {DiskType.sata, DiskType.nand}) (.set {DiskType.hdd4k, DiskType.optane})
      = .ok (decide (Finset.min' {DiskType.sata, DiskType.nand} (by decide)
          ≤ Finset.min' {DiskType.hdd4k, DiskType.optane} (by decide))) ∧
    exprEq [] (.set {DiskType.sata, DiskType.nand}) (.set {DiskType.hdd4k, DiskType.optane})
      = .ok (Finset.min' {DiskType.sata, DiskType.nand} (by decide)
          == Finset.min' {DiskType.hdd4k, DiskType.optane} (by decide)) ∧
    exprNe [] (.set {DiskType.sata, DiskType.nand}) (.set {DiskType.hdd4k, DiskType.optane})
      = .ok (Finset.min' {DiskType.sata, DiskType.nand} (by decide)
          != Finset.min' {DiskType.hdd4k, DiskType.optane} (by decide)) ∧
    exprGt [] (.set {DiskType.sata, DiskType.nand}) (.set {DiskType.hdd4k, DiskType.optane})
      = .ok (decide (Finset.min' {DiskType.hdd4k, DiskType.optane} (by decide)
          < Finset.min' {DiskType.sata, DiskType.nand} (by decide))) ∧
    exprGe [] (.set {DiskType.sata, DiskType.nand}) (.set {DiskType.hdd4k, DiskType.optane})
      = .ok (decide (Finset.min' {DiskType.hdd4k, DiskType.optane} (by decide)
          ≤ Finset.min' {DiskType.sata, DiskType.nand} (by decide))) :=
  c3_cmp_min_only [] (.set {DiskType.sata, DiskType.nand})
    (.set {DiskType.hdd4k, DiskType.optane})
    {DiskType.sata, DiskType.nand} {DiskType.hdd4k, DiskType.optane}
    rfl rfl (by decide) (by decide)

/-- C6: `find_disks` returns all SSD records first, in vendor-tool index
order, followed by the HDD records built from the remaining candidate
pool in listing order; every device matched to a vendor-tool entry is
removed from the pool when consumed (so, for a duplicate-free pool, no
SSD-classified device is also HDD-classified), and an entry whose
resolved device is not among the candidates is skipped outright. -/
theorem c6_find_disks_structure (env : FinderEnv) (bd bdLeft : List String)
    (ssdRecs res : List DiskRecord)
    (e : SsdEntry) (rest : List SsdEntry) (bd0 : List String) (dv : String)
    (hbd : getBlockDevicesList env = .ok bd)
    (hnodup : bd.Nodup)
    (hssd : discoverSsdDevices env env.ssdEntries bd = .ok (ssdRecs, bdLeft))
    (hres : findDisks env = .ok res)
    (hdv : env.byIdLink e.devicePath = some dv)
    (hnotin : bd0.contains dv = false) :
    res = ssdRecs ++ discoverHddDevices env bdLeft ∧
    bdLeft.Sublist bd ∧
    (ssdConsumed env env.ssdEntries bd).all (fun d => !(bdLeft.contains d)) = true ∧
    discoverSsdDevices env (e :: rest) bd0 = discoverSsdDevices env rest bd0 := by
  obtain ⟨hsub, hcons⟩ := discoverSsd_props env env.ssdEntries bd ssdRecs bdLeft hssd
  refine ⟨?_, hsub, ?_, discoverSsd_skip env e rest bd0 dv hdv hnotin⟩
  · unfold findDisks at hres
    by_cases hi : env.isdctOk = true
    · rw [hi] at hres
      rw [if_neg (by simp)] at hres
      simp only [hbd, hssd, Bind.bind, Except.bind, pure, Except.pure,
        Except.ok.injEq] at hres
      exact hres.symm
    · rw [Bool.not_eq_true] at hi
      rw [hi] at hres
      simp at hres
  · rw [List.all_eq_true]
    intro d hd
    have h2 := hcons hnodup d hd
    simpa using h2

/-- Witness for C6 on a concrete environment with one OS disk, one HDD
and one vendor-reported NVMe SSD. -/
theorem c6_find_disks_structure_witness :
    [(⟨"nand", "/dev/disk/by-id/nvme-1", "SSDSER", 512, 1000000⟩ : DiskRecord),
     ⟨"hdd", "/dev/disk/by-id/wwn-sdb", "HDDSER", 512, 1000000⟩]
      = [(⟨"nand", "/dev/disk/by-id/nvme-1", "SSDSER", 512, 1000000⟩ : DiskRecord)]
        ++ discoverHddDevices c6Env ["/dev/disk/by-id/wwn-sdb"] ∧
    List.Sublist ["/dev/disk/by-id/wwn-sdb"]
      ["/dev/disk/by-id/wwn-sdb", "/dev/disk/by-id/nvme-1"] ∧
    (ssdConsumed c6Env c6Env.ssdEntries
        ["/dev/disk/by-id/wwn-sdb", "/dev/disk/by-id/nvme-1"]).all
      (fun d => !(["/dev/disk/by-id/wwn-sdb"].contains d)) = true ∧
    discoverSsdDevices c6Env [⟨"/dev/nvme0n1", "SSDSER", false⟩] []
      = discoverSsdDevices c6Env [] [] :=
  c6_find_disks_structure c6Env
    ["/dev/disk/by-id/wwn-sdb", "/dev/disk/by-id/nvme-1"]
    ["/dev/disk/by-id/wwn-sdb"]
    [⟨"nand", "/dev/disk/by-id/nvme-1", "SSDSER", 512, 1000000⟩]
    [⟨"nand", "/dev/disk/by-id/nvme-1", "SSDSER", 512, 1000000⟩,
     ⟨"hdd", "/dev/disk/by-id/wwn-sdb", "HDDSER", 512, 1000000⟩]
    ⟨"/dev/nvme0n1", "SSDSER", false⟩ [] [] "/dev/disk/by-id/nvme-1"
    (by decide) (by decide) (by decide) (by decide) (by decide) (by decide)

/-- C7: serializing a `DiskTypeSet` produces a JSON object whose `type`
field is `"set"` and whose `values` list holds exactly the names of the
set's elements; for `{sata, nand}` the decoded values are `"sata"` and
`"nand"`. -/
theorem c7_diskTypeSet_json (s : Finset DiskType) :
    (∃ vs : List String,
      DiskTypeSet.json s
        = .obj [("type", .str "set"), ("values", .arr (vs.map .str))] ∧
      ∀ n, n ∈ vs ↔ ∃ t ∈ s, DiskType.name t = n) ∧
    DiskTypeSet.json {DiskType.sata, DiskType.nand}
      = .obj [("type", .str "set"), ("values", .arr [.str "sata", .str "nand"])] := by
  constructor
  · refine ⟨(diskTypeMembers.filter (fun t => decide (t ∈ s))).map DiskType.name, ?_, ?_⟩
    · simp [DiskTypeSet.json, List.map_map, Function.comp]
    · intro n
      simp only [List.mem_map, List.mem_filter]
      constructor
      · rintro ⟨t, ⟨_, ht⟩, rfl⟩
        exact ⟨t, by simpa using ht, rfl⟩
      · rintro ⟨t, ht, rfl⟩
        exact ⟨t, ⟨mem_diskTypeMembers t, by simpa using ht⟩, rfl⟩
  · rfl

/-- C8: `is_detected()` on a disk with neither a (truthy) serial number
nor a (truthy) path raises the generic contract-violation error; no
detection probe is issued (the result carries no commands). -/
theorem c8_isDetected_contract (env : DetectEnv) (s : DiskState)
    (hser : truthy s.serialNumber = false) (hpath : truthy s.path = false) :
    isDetected env s
      = .error ("Couldn" ++ squote ++ "t check if device is detected by the system") := by
  unfold isDetected
  simp [hser, hpath]

/-- Witness for C8 on a disk constructed with `serial_number = None` and
`path = None`. -/
theorem c8_isDetected_contract_witness :
    isDetected
      ⟨[], fun _ => false, fun _ _ => "", fun _ => "", fun _ => none⟩
      ⟨none, none, DiskType.sata, [], SataDisk.plugAllCommand⟩
      = .error ("Couldn" ++ squote ++ "t check if device is detected by the system") :=
  c8_isDetected_contract _ _ rfl rfl

/-- C4: `plug()` on an already-detected disk and `unplug()` on an
already-undetected disk are no-ops for every subclass command variant: no
plug or unplug command is issued (only the detection probe runs) and the
disk's plug state is unchanged (the detection check still yields the same
answer on the resulting state). -/
theorem c4_plug_unplug_idempotent (execP execU : ExecCmd) (envs : Nat → DetectEnv)
    (s t s1 t1 : DiskState) (trS trT : List Cmd)
    (hs : isDetected (envs 0) s = .ok (true, s1, trS))
    (ht : isDetected (envs 0) t = .ok (false, t1, trT)) :
    Disk.plug execP envs s = .ok (s1, trS) ∧
    trS.any Cmd.isPlugOrUnplug = false ∧
    isDetected (envs 0) s1 = .ok (true, s1, trS) ∧
    Disk.unplug execU envs t = .ok (t1, trT) ∧
    trT.any Cmd.isPlugOrUnplug = false ∧
    isDetected (envs 0) t1 = .ok (false, t1, trT) := by
  refine ⟨?_, isDetected_noPlugCmds _ _ _ _ _ hs, isDetected_idem _ _ _ _ _ hs,
    ?_, isDetected_noPlugCmds _ _ _ _ _ ht, isDetected_idem _ _ _ _ _ ht⟩
  · simp [Disk.plug, hs, Bind.bind, Except.bind]
  · simp [Disk.unplug, ht, Bind.bind, Except.bind]

/-- Witness for C4 with a concrete SATA disk detected by path (resp. a
concrete absent disk). -/
theorem c4_plug_unplug_idempotent_witness :
    Disk.plug SataDisk.executePlugCommand
      (fun _ => ⟨[], fun p => p == "/dev/disk/by-id/wwn-1", fun _ _ => "",
        fun _ => "", fun _ => none⟩)
      ⟨some "/dev/disk/by-id/wwn-1", none, DiskType.sata, [], SataDisk.plugAllCommand⟩
      = .ok (⟨some "/dev/disk/by-id/wwn-1", none, DiskType.sata, [],
          SataDisk.plugAllCommand⟩, [Cmd.lsItem "/dev/disk/by-id/wwn-1"]) ∧
    [Cmd.lsItem "/dev/disk/by-id/wwn-1"].any Cmd.isPlugOrUnplug = false ∧
    isDetected
      ⟨[], fun p => p == "/dev/disk/by-id/wwn-1", fun _ _ => "", fun _ => "", fun _ => none⟩
      ⟨some "/dev/disk/by-id/wwn-1", none, DiskType.sata, [], SataDisk.plugAllCommand⟩
      = .ok (true, ⟨some "/dev/disk/by-id/wwn-1", none, DiskType.sata, [],
          SataDisk.plugAllCommand⟩, [Cmd.lsItem "/dev/disk/by-id/wwn-1"]) ∧
    Disk.unplug SataDisk.executeUnplugCommand
      (fun _ => ⟨[], fun p => p == "/dev/disk/by-id/wwn-1", fun _ _ => "",
        fun _ => "", fun _ => none⟩)
      ⟨some "/dev/disk/by-id/wwn-2", none, DiskType.sata, [], SataDisk.plugAllCommand⟩
      = .ok (⟨some "/dev/disk/by-id/wwn-2", none, DiskType.sata, [],
          SataDisk.plugAllCommand⟩, [Cmd.lsItem "/dev/disk/by-id/wwn-2"]) ∧
    [Cmd.lsItem "/dev/disk/by-id/wwn-2"].any Cmd.isPlugOrUnplug = false ∧
    isDetected
      ⟨[], fun p => p == "/dev/disk/by-id/wwn-1", fun _ _ => "", fun _ => "", fun _ => none⟩
      ⟨some "/dev/disk/by-id/wwn-2", none, DiskType.sata, [], SataDisk.plugAllCommand⟩
      = .ok (false, ⟨some "/dev/disk/by-id/wwn-2", none, DiskType.sata, [],
          SataDisk.plugAllCommand⟩, [Cmd.lsItem "/dev/disk/by-id/wwn-2"]) :=
  c4_plug_unplug_idempotent SataDisk.executePlugCommand SataDisk.executeUnplugCommand
    (fun _ => ⟨[], fun p => p == "/dev/disk/by-id/wwn-1", fun _ _ => "",
      fun _ => "", fun _ => none⟩)
    ⟨some "/dev/disk/by-id/wwn-1", none, DiskType.sata, [], SataDisk.plugAllCommand⟩
    ⟨some "/dev/disk/by-id/wwn-2", none, DiskType.sata, [], SataDisk.plugAllCommand⟩
    ⟨some "/dev/disk/by-id/wwn-1", none, DiskType.sata, [], SataDisk.plugAllCommand⟩
    ⟨some "/dev/disk/by-id/wwn-2", none, DiskType.sata, [], SataDisk.plugAllCommand⟩
    [Cmd.lsItem "/dev/disk/by-id/wwn-1"] [Cmd.lsItem "/dev/disk/by-id/wwn-2"]
    (by decide) (by decide)

/-- C5 (amended): when the device never disappears, `unplug()` polls once
per second for 60 seconds and then raises a timeout error whose message
names the intended action ("unplug") — but, contrary to the original
claim, not the disk's type; the same 60-second/1-second policy applies to
`plug()` with action "plug".  The polling helper is modelled from the
spec (see `pollWait`). -/
theorem c5_unplug_plug_timeout (execU execP : ExecCmd) (env : DetectEnv)
    (s s1 s2 s3 u u1 u2 u3 : DiskState)
    (tr1 tr2 trP tu1 tu2 tuP : List Cmd)
    (hdet : isDetected env s = .ok (true, s1, tr1))
    (hcmd : execU env s1 = .ok (s2, tr2))
    (hstuck : isDetected env s2 = .ok (true, s3, trP))
    (hudet : isDetected env u = .ok (false, u1, tu1))
    (hucmd : execP env u1 = .ok (u2, tu2))
    (hustuck : isDetected env u2 = .ok (false, u3, tuP)) :
    Disk.unplug execU (fun _ => env) s = .error (timeoutMessage false) ∧
    Disk.plug execP (fun _ => env) u = .error (timeoutMessage true) ∧
    timeoutMessage false = "Timeout occurred while trying to unplug disk." ∧
    timeoutMessage true = "Timeout occurred while trying to plug disk." ∧
    containsSubstr "unplug" (timeoutMessage false) = true ∧
    containsSubstr "plug" (timeoutMessage true) = true ∧
    waitTimeoutSeconds = 60 ∧ waitIntervalSeconds = 1 := by
  have hidemS := isDetected_idem _ _ _ _ _ hstuck
  have hidemU := isDetected_idem _ _ _ _ _ hustuck
  have hrestS := pollWait_stuck env false true s3 trP hidemS rfl 59 (1 + 1)
  have hrestU := pollWait_stuck env true false u3 tuP hidemU rfl 59 (1 + 1)
  have hpollS : pollWait false (fun _ => env) s2 1 60
      = .ok (false, s3, trP ++ (List.replicate 59 trP).flatten) := by
    rw [show (60 : Nat) = 59 + 1 from rfl, pollWait_succ]
    simp only [Bind.bind, Except.bind, hstuck, hrestS]
    rfl
  have hpollU : pollWait true (fun _ => env) u2 1 60
      = .ok (false, u3, tuP ++ (List.replicate 59 tuP).flatten) := by
    rw [show (60 : Nat) = 59 + 1 from rfl, pollWait_succ]
    simp only [Bind.bind, Except.bind, hustuck, hrestU]
    rfl
  have hdiv : waitTimeoutSeconds / waitIntervalSeconds = 60 := rfl
  have hwaitS : waitForPlugStatus false (fun _ => env) s2 = .error (timeoutMessage false) := by
    unfold waitForPlugStatus
    rw [hdiv, hpollS]
    rfl
  have hwaitU : waitForPlugStatus true (fun _ => env) u2 = .error (timeoutMessage true) := by
    unfold waitForPlugStatus
    rw [hdiv, hpollU]
    rfl
  refine ⟨?_, ?_, rfl, rfl, by decide, by decide, rfl, rfl⟩
  · simp [Disk.unplug, hdet, hcmd, hwaitS, Bind.bind, Except.bind]
  · simp [Disk.plug, hudet, hucmd, hwaitU, Bind.bind, Except.bind]

/-- Witness for the amended C5 at a concrete SATA disk and machine
snapshot. -/
theorem c5_unplug_plug_timeout_witness :
    Disk.unplug SataDisk.executeUnplugCommand (fun _ => c5Env) c5DiskA
      = .error (timeoutMessage false) ∧
    Disk.plug SataDisk.executePlugCommand (fun _ => c5Env) c5DiskB
      = .error (timeoutMessage true) ∧
    timeoutMessage false = "Timeout occurred while trying to unplug disk." ∧
    timeoutMessage true = "Timeout occurred while trying to plug disk." ∧
    containsSubstr "unplug" (timeoutMessage false) = true ∧
    containsSubstr "plug" (timeoutMessage true) = true ∧
    waitTimeoutSeconds = 60 ∧ waitIntervalSeconds = 1 :=
  c5_unplug_plug_timeout SataDisk.executeUnplugCommand SataDisk.executePlugCommand
    c5Env c5DiskA c5DiskA c5DiskA2 c5DiskA2 c5DiskB c5DiskB c5DiskB c5DiskB
    [Cmd.lsItem "/dev/disk/by-id/ata-1"]
    [Cmd.unplugCmd
      ("echo 1 > /sys/devices/platform/host0/target0:0:0/0:0:0:0/block/sda/device/delete")]
    [Cmd.lsItem "/dev/disk/by-id/ata-1"]
    [Cmd.lsItem "/dev/disk/by-id/ata-2"]
    [Cmd.plugCmd SataDisk.plugAllCommand]
    [Cmd.lsItem "/dev/disk/by-id/ata-2"]
    (by decide) (by decide) (by decide) (by decide) (by decide) (by decide)

/-- Counterexample to C5 as stated: for a concrete SATA disk whose device
never disappears, `unplug()` raises the timeout error, but the error
message does not contain the disk's type name ("sata") — it only names
the action. -/
theorem c5_timeout_counterexample :
    Disk.unplug SataDisk.executeUnplugCommand (fun _ => c5Env) c5DiskA
      = .error (timeoutMessage false) ∧
    containsSubstr (DiskType.name c5DiskA.diskType) (timeoutMessage false) = false := by
  constructor
  · decide
  · decide

/-- C9: a successful SATA `unplug()` resolves the device's sysfs address,
parses the SCSI address tuple from the third-from-last path component,
and as a side effect overwrites the cached `plug_command` with the
reconstructed targeted scan command (`'port target lun'` written to the
controller's `scsi_host` scan file); a subsequent `plug()` issues exactly
that cached command, which differs from the generic rescan-all command. -/
theorem c9_sata_unplug_caches_plug_command (envs : Nat → DetectEnv)
    (s s1 s3 : DiskState) (tr0 trG : List Cmd)
    (fullPath cId pId tId lun : String)
    (hdet : isDetected (envs 0) s = .ok (true, s1, tr0))
    (haddr : (envs 0).sysfsAddr ((envs 0).getDeviceId (s1.path.getD ""))
      = some fullPath)
    (hlen : 3 ≤ (pySplitSlash fullPath).length)
    (hparse : parseScsiAddr ((pySplitSlash fullPath).getD
        ((pySplitSlash fullPath).length - 3) "") = some (cId, pId, tId, lun))
    (hgone : isDetected (envs 1)
        { s1 with
          plugCommand := scsiScanCommand (sysfsHostPath fullPath) cId pId tId lun }
      = .ok (false, s3, trG)) :
    SataDisk.getSysfsProperties (envs 0) s1 ((envs 0).getDeviceId (s1.path.getD ""))
      = .ok (fullPath,
          { s1 with
            plugCommand := scsiScanCommand (sysfsHostPath fullPath) cId pId tId lun }) ∧
    Disk.unplug SataDisk.executeUnplugCommand envs s
      = .ok (s3,
          tr0 ++ [Cmd.unplugCmd ("echo 1 > " ++ fullPath ++ "/device/delete")] ++ trG) ∧
    s3.plugCommand = scsiScanCommand (sysfsHostPath fullPath) cId pId tId lun ∧
    SataDisk.executePlugCommand (envs 1) s3
      = .ok (s3,
          [Cmd.plugCmd (scsiScanCommand (sysfsHostPath fullPath) cId pId tId lun)]) ∧
    scsiScanCommand (sysfsHostPath fullPath) cId pId tId lun
      ≠ SataDisk.plugAllCommand := by
  have hsysfs : SataDisk.getSysfsProperties (envs 0) s1
      ((envs 0).getDeviceId (s1.path.getD ""))
      = .ok (fullPath,
          { s1 with
            plugCommand := scsiScanCommand (sysfsHostPath fullPath) cId pId tId lun }) := by
    simp only [SataDisk.getSysfsProperties, haddr]
    rw [if_neg (Nat.not_lt.mpr hlen)]
    simp only [hparse]
  have hexec : SataDisk.executeUnplugCommand (envs 0) s1
      = .ok ({ s1 with
            plugCommand := scsiScanCommand (sysfsHostPath fullPath) cId pId tId lun },
          [Cmd.unplugCmd ("echo 1 > " ++ fullPath ++ "/device/delete")]) := by
    simp only [SataDisk.executeUnplugCommand, hsysfs, Bind.bind, Except.bind]
  have hplug3 : s3.plugCommand = scsiScanCommand (sysfsHostPath fullPath) cId pId tId lun := by
    have := isDetected_plugCommand _ _ _ _ _ hgone
    simpa using this
  have hwait : waitForPlugStatus false envs
      { s1 with
        plugCommand := scsiScanCommand (sysfsHostPath fullPath) cId pId tId lun }
      = .ok (s3, trG) := by
    unfold waitForPlugStatus
    rw [show waitTimeoutSeconds / waitIntervalSeconds = 60 from rfl,
      show (60 : Nat) = 59 + 1 from rfl, pollWait_succ]
    simp only [hgone, Bind.bind, Except.bind]
    rfl
  refine ⟨hsysfs, ?_, hplug3, ?_, scanCommand_ne_plugAll _ _ _ _ _⟩
  · simp [Disk.unplug, hdet, hexec, hwait, Bind.bind, Except.bind]
  · simp [SataDisk.executePlugCommand, hplug3]

/-- Witness for C9 on a concrete SATA disk whose sysfs address is
`/sys/devices/platform/host0/target0:0:0/0:0:0:0/block/sda`. -/
theorem c9_sata_unplug_caches_plug_command_witness :
    SataDisk.getSysfsProperties (c9Envs 0) c5DiskA ((c9Envs 0).getDeviceId
        (c5DiskA.path.getD ""))
      = .ok ("/sys/devices/platform/host0/target0:0:0/0:0:0:0/block/sda",
          { c5DiskA with
            plugCommand := scsiScanCommand
              (sysfsHostPath "/sys/devices/platform/host0/target0:0:0/0:0:0:0/block/sda")
              "0" "0" "0" "0" }) ∧
    Disk.unplug SataDisk.executeUnplugCommand c9Envs c5DiskA
      = .ok ({ c5DiskA with
            plugCommand := scsiScanCommand
              (sysfsHostPath "/sys/devices/platform/host0/target0:0:0/0:0:0:0/block/sda")
              "0" "0" "0" "0" },
          [Cmd.lsItem "/dev/disk/by-id/ata-1"]
            ++ [Cmd.unplugCmd
              ("echo 1 > " ++ "/sys/devices/platform/host0/target0:0:0/0:0:0:0/block/sda"
                ++ "/device/delete")]
            ++ [Cmd.lsItem "/dev/disk/by-id/ata-1"]) ∧
    ({ c5DiskA with
        plugCommand := scsiScanCommand
          (sysfsHostPath "/sys/devices/platform/host0/target0:0:0/0:0:0:0/block/sda")
          "0" "0" "0" "0" } : DiskState).plugCommand
      = scsiScanCommand
          (sysfsHostPath "/sys/devices/platform/host0/target0:0:0/0:0:0:0/block/sda")
          "0" "0" "0" "0" ∧
    SataDisk.executePlugCommand (c9Envs 1)
        { c5DiskA with
          plugCommand := scsiScanCommand
            (sysfsHostPath "/sys/devices/platform/host0/target0:0:0/0:0:0:0/block/sda")
            "0" "0" "0" "0" }
      = .ok ({ c5DiskA with
            plugCommand := scsiScanCommand
              (sysfsHostPath "/sys/devices/platform/host0/target0:0:0/0:0:0:0/block/sda")
              "0" "0" "0" "0" },
          [Cmd.plugCmd (scsiScanCommand
            (sysfsHostPath "/sys/devices/platform/host0/target0:0:0/0:0:0:0/block/sda")
            "0" "0" "0" "0")]) ∧
    scsiScanCommand
        (sysfsHostPath "/sys/devices/platform/host0/target0:0:0/0:0:0:0/block/sda")
        "0" "0" "0" "0"
      ≠ SataDisk.plugAllCommand :=
  c9_sata_unplug_caches_plug_command c9Envs c5DiskA c5DiskA
    { c5DiskA with
      plugCommand := scsiScanCommand
        (sysfsHostPath "/sys/devices/platform/host0/target0:0:0/0:0:0:0/block/sda")
        "0" "0" "0" "0" }
    [Cmd.lsItem "/dev/disk/by-id/ata-1"] [Cmd.lsItem "/dev/disk/by-id/ata-1"]
    "/sys/devices/platform/host0/target0:0:0/0:0:0:0/block/sda" "0" "0" "0" "0"
    (by decide) (by decide) (by decide) (by decide) (by decide)

/-- C10 (implicit): every comparison operator is only defined when both
resolved sets are non-empty: when either side's set is empty the
comparison raises Python's empty-`min` error instead of returning a
boolean; in particular `DiskTypeLowerThan` over a disk registered as
`hdd` resolves to the empty set. -/
theorem c10_cmp_empty_set_raises (reg : Registry) (a b : DiskTypeExpr)
    (sa sb : Finset DiskType) (m : String)
    (ha : a.types reg = .ok sa) (hb : b.types reg = .ok sb)
    (hempty : sa = ∅ ∨ sb = ∅) (hm : reg.find m = some DiskType.hdd) :
    exprLt reg a b = .error "min() arg is an empty sequence" ∧
    exprLe reg a b = .error "min() arg is an empty sequence" ∧
    exprEq reg a b = .error "min() arg is an empty sequence" ∧
    exprNe reg a b = .error "min() arg is an empty sequence" ∧
    exprGt reg a b = .error "min() arg is an empty sequence" ∧
    exprGe reg a b = .error "min() arg is an empty sequence" ∧
    (DiskTypeExpr.lowerThan m).types reg = .ok ∅ := by
  have key : ∀ f, cmpWith f reg a b = .error "min() arg is an empty sequence" := by
    intro f
    rcases hempty with he | he
    · subst he
      simp [cmpWith, ha, minOfSet_empty, Bind.bind, Except.bind]
    · subst he
      by_cases hsa : sa.Nonempty
      · simp [cmpWith, ha, hb, minOfSet_ok sa hsa, minOfSet_empty,
          Bind.bind, Except.bind]
      · have : minOfSet sa = .error "min() arg is an empty sequence" := by
          simp [minOfSet, hsa]
        simp [cmpWith, ha, this, Bind.bind, Except.bind]
  refine ⟨key _, key _, key _, key _, key _, key _, ?_⟩
  simp only [DiskTypeExpr.types, hm]
  decide

/-- Witness for C10: a `DiskTypeLowerThan` over an `hdd` disk has an
empty set and every comparison with it raises. -/
theorem c10_cmp_empty_set_raises_witness :
    exprLt [("d", DiskType.hdd)] (.lowerThan "d") (.lowerThan "d")
      = .error "min() arg is an empty sequence" ∧
    exprLe [("d", DiskType.hdd)] (.lowerThan "d") (.lowerThan "d")
      = .error "min() arg is an empty sequence" ∧
    exprEq [("d", DiskType.hdd)] (.lowerThan "d") (.lowerThan "d")
      = .error "min() arg is an empty sequence" ∧
    exprNe [("d", DiskType.hdd)] (.lowerThan "d") (.lowerThan "d")
      = .error "min() arg is an empty sequence" ∧
    exprGt [("d", DiskType.hdd)] (.lowerThan "d") (.lowerThan "d")
      = .error "min() arg is an empty sequence" ∧
    exprGe [("d", DiskType.hdd)] (.lowerThan "d") (.lowerThan "d")
      = .error "min() arg is an empty sequence" ∧
    (DiskTypeExpr.lowerThan "d").types [("d", DiskType.hdd)] = .ok ∅ :=
  c10_cmp_empty_set_raises [("d", DiskType.hdd)] (.lowerThan "d") (.lowerThan "d")
    ∅ ∅ "d" (by decide) (by decide) (Or.inl rfl) (by decide)

end TestFramework
